import Mathlib

/-!
Shallow embedding of the TaskManager backend (Express + Sequelize).

The embedding covers the `Task` model with its `beforeUpdate` hook
(models/Task.js), the instance helper `getDuration`, and the route handlers
`POST /api/tasks`, `PUT /api/tasks/:id`, `PATCH /api/tasks/:id/status` and
`GET /api/tasks` (routes/tasks.js).

Modelling conventions:
- JS `Date` values are epoch milliseconds (`Int`); `null`/`undefined` is
  `Option.none`.
- Decimal columns are `ℚ`.
- `status` and `priority` are plain strings, as in the JS source; the enum
  domains are the literal string lists from the handlers.
- For fields of an update body, the outer `Option` is `undefined` vs present
  and the inner `Option` is `null` vs a value, matching the handler's
  `!== undefined` checks followed by truthiness checks.
- SQL `LIKE '%x%'` on a non-null column is substring containment; on a NULL
  column it does not match the row.
-/

namespace TaskManager

/-- The status enum literal list used by the route handlers. -/
def validStatuses : List String :=
  ["todo", "in_progress", "pending_review", "approved", "rejected_revision", "cancelled"]

/-- The priority enum literal list used by the route handlers. -/
def validPriorities : List String := ["low", "medium", "high"]

/-- A row of the `tasks` table (models/Task.js). -/
structure Task where
  id : Nat
  title : String
  description : Option String
  priority : String
  status : String
  assignee : Option String
  due_date : Option Int
  started_at : Option Int
  completed_at : Option Int
  tags : Option String
  estimated_hours : Option ℚ
  actual_hours : Option ℚ
  project_id : Option String
  project_name : Option String
  created_at : Int
  updated_at : Int
deriving DecidableEq

/-- The `beforeUpdate` hook (models/Task.js lines 96-125): given the stored
status immediately before the write (`task._previousDataValues.status`) and
the record with its fields already set to the incoming values, adjust
`started_at` and `completed_at`.  The four conditional mutations run in
source order. -/
def beforeUpdate (previousStatus : String) (task : Task) (now : Int) : Task :=
  let t1 :=
    if task.status = "in_progress" ∧ previousStatus ≠ "in_progress" ∧ task.started_at = none
    then { task with started_at := some now } else task
  let t2 :=
    if t1.status = "approved" ∧ previousStatus ≠ "approved"
    then { t1 with completed_at := some now } else t1
  let t3 :=
    if previousStatus = "approved" ∧ t2.status ≠ "approved"
    then { t2 with completed_at := none } else t2
  let t4 :=
    if previousStatus = "in_progress" ∧ t3.status = "todo"
    then { t3 with started_at := none } else t3
  t4

/-- JS `Math.round`: round half toward positive infinity. -/
def jsRound (q : ℚ) : Int := Int.floor (q + 1 / 2)

/-- The `getDuration` instance helper (models/Task.js lines 159-165):
`Math.round(duration / (1000 * 60 * 60 * 24 * 100)) / 100` over the
millisecond difference, or `null` when either timestamp is unset. -/
def getDuration (started_at completed_at : Option Int) : Option ℚ :=
  match started_at, completed_at with
  | some s, some c =>
      some (((jsRound (((c - s : Int) : ℚ) / (1000 * 60 * 60 * 24 * 100)) : Int) : ℚ) / 100)
  | _, _ => none

/-- The duration as the spec words it: the elapsed time between the two
timestamps expressed in days, rounded to 2 decimal places (comparison
definition for the refinement check of the spec sentence). -/
def getDurationSpec (started_at completed_at : Option Int) : Option ℚ :=
  match started_at, completed_at with
  | some s, some c =>
      some (((jsRound ((((c - s : Int) : ℚ) / (1000 * 60 * 60 * 24)) * 100) : Int) : ℚ) / 100)
  | _, _ => none

/-- The pure transition function as the spec words it
(`computeDerivedTimestamps(previousStatus, nextStatus, existing, now)`,
spec §4.1); comparison definition for the refinement check. -/
def computeDerivedTimestamps (previousStatus nextStatus : String)
    (started_at completed_at : Option Int) (now : Int) : Option Int × Option Int :=
  let s :=
    if nextStatus = "in_progress" ∧ previousStatus ≠ "in_progress" ∧ started_at = none
    then some now
    else if previousStatus = "in_progress" ∧ nextStatus = "todo" then none
    else started_at
  let c :=
    if nextStatus = "approved" ∧ previousStatus ≠ "approved" then some now
    else if previousStatus = "approved" ∧ nextStatus ≠ "approved" then none
    else completed_at
  (s, c)

/-- JS `String.prototype.trim`: strip leading and trailing whitespace
(structural definition on the character list so that concrete instances
evaluate). -/
def jsTrim (s : String) : String :=
  ⟨((s.data.dropWhile Char.isWhitespace).reverse.dropWhile Char.isWhitespace).reverse⟩

/-- Errors surfaced by the handlers: HTTP 400 and HTTP 404. -/
inductive ApiError where
  | badRequest (message : String)
  | notFound (message : String)
deriving DecidableEq

/-- `x ? x.trim() : null` on a nullable string value. -/
def strOrNull (v : Option String) : Option String :=
  match v with
  | none => none
  | some s => if s = "" then none else some (jsTrim s)

/-- `x ? parseFloat(x) : null` on a nullable numeric value (0 is falsy). -/
def numOrNull (v : Option ℚ) : Option ℚ :=
  match v with
  | none => none
  | some q => if q = 0 then none else some q

/-- Body of `POST /api/tasks`.  The last four fields can appear in a request
body but are never read by the handler (routes/tasks.js lines 448-509
destructure only the whitelist). -/
structure CreatePayload where
  title : Option String
  description : Option String
  priority : Option String
  status : Option String
  assignee : Option String
  due_date : Option Int
  tags : Option String
  estimated_hours : Option ℚ
  project_id : Option String
  project_name : Option String
  id : Option Nat
  started_at : Option Int
  completed_at : Option Int
  actual_hours : Option ℚ
deriving DecidableEq

/-- `POST /api/tasks` (routes/tasks.js lines 447-521): validation followed by
`Task.create(taskData)`.  `nextId` is the store's auto-assigned surrogate key
and `now` the value of `created_at`/`updated_at`.  The `beforeCreate` hook
only logs, so no timestamp derivation runs on create. -/
def createTask (body : CreatePayload) (nextId : Nat) (now : Int) : Except ApiError Task :=
  let priority := body.priority.getD "medium"
  let status := body.status.getD "todo"
  match body.title with
  | none => Except.error (ApiError.badRequest "任务标题不能为空")
  | some title =>
    if (jsTrim title).length = 0 then Except.error (ApiError.badRequest "任务标题不能为空")
    else if title.length > 100 then
      Except.error (ApiError.badRequest "任务标题长度不能超过100个字符")
    else if ¬ priority ∈ validPriorities then
      Except.error (ApiError.badRequest "无效的优先级值")
    else if ¬ status ∈ validStatuses then
      Except.error (ApiError.badRequest "无效的状态值")
    else Except.ok {
      id := nextId
      title := jsTrim title
      description := strOrNull body.description
      priority := priority
      status := status
      assignee := strOrNull body.assignee
      due_date := body.due_date
      started_at := none
      completed_at := none
      tags := strOrNull body.tags
      estimated_hours := numOrNull body.estimated_hours
      actual_hours := none
      project_id := strOrNull body.project_id
      project_name := strOrNull body.project_name
      created_at := now
      updated_at := now }

/-- Body of `PUT /api/tasks/:id`: outer `Option` is `undefined` vs present,
inner `Option` is `null` vs a value. -/
structure UpdatePayload where
  title : Option String
  description : Option (Option String)
  priority : Option String
  status : Option String
  assignee : Option (Option String)
  due_date : Option (Option Int)
  tags : Option (Option String)
  estimated_hours : Option (Option ℚ)
  actual_hours : Option (Option ℚ)
  project_id : Option (Option String)
  project_name : Option (Option String)
deriving DecidableEq

/-- The `updateData` application of `PUT /api/tasks/:id` (routes/tasks.js
lines 706-720): each supplied field overwrites the stored one; `started_at`
and `completed_at` are never part of `updateData`. -/
def applyUpdateData (task : Task) (body : UpdatePayload) (now : Int) : Task :=
  { task with
    title := (match body.title with | some t => jsTrim t | none => task.title)
    description := (match body.description with | some d => strOrNull d | none => task.description)
    priority := body.priority.getD task.priority
    status := body.status.getD task.status
    assignee := (match body.assignee with | some a => strOrNull a | none => task.assignee)
    due_date := (match body.due_date with | some d => d | none => task.due_date)
    tags := (match body.tags with | some v => strOrNull v | none => task.tags)
    estimated_hours :=
      (match body.estimated_hours with | some v => numOrNull v | none => task.estimated_hours)
    actual_hours :=
      (match body.actual_hours with | some v => numOrNull v | none => task.actual_hours)
    project_id := (match body.project_id with | some v => strOrNull v | none => task.project_id)
    project_name := (match body.project_name with | some v => strOrNull v | none => task.project_name)
    updated_at := now }

/-- `task.update(updateData)`: set the supplied fields, then run the
`beforeUpdate` hook with the stored status as `previousStatus`. -/
def applyUpdate (task : Task) (body : UpdatePayload) (now : Int) : Except ApiError Task :=
  Except.ok (beforeUpdate task.status (applyUpdateData task body now) now)

/-- Status-enum validation step of `PUT /api/tasks/:id` (lines 695-703). -/
def checkStatusField (task : Task) (body : UpdatePayload) (now : Int) : Except ApiError Task :=
  match body.status with
  | some s =>
      if s ∈ validStatuses then applyUpdate task body now
      else Except.error (ApiError.badRequest "无效的状态值")
  | none => applyUpdate task body now

/-- Priority-enum validation step of `PUT /api/tasks/:id` (lines 685-693). -/
def checkPriorityField (task : Task) (body : UpdatePayload) (now : Int) : Except ApiError Task :=
  match body.priority with
  | some p =>
      if p ∈ validPriorities then checkStatusField task body now
      else Except.error (ApiError.badRequest "无效的优先级值")
  | none => checkStatusField task body now

/-- `PUT /api/tasks/:id` (routes/tasks.js lines 639-757) applied to a found
row: title validation (lines 669-682), enum validation, then the update. -/
def updateTask (task : Task) (body : UpdatePayload) (now : Int) : Except ApiError Task :=
  match body.title with
  | some t =>
      if jsTrim t = "" then Except.error (ApiError.badRequest "任务标题不能为空")
      else if t.length > 100 then
        Except.error (ApiError.badRequest "任务标题长度不能超过100个字符")
      else checkPriorityField task body now
  | none => checkPriorityField task body now

/-- `PATCH /api/tasks/:id/status` (routes/tasks.js lines 834-888) applied to
a found row: `!status` then enum validation, then `task.update({ status })`. -/
def patchStatus (task : Task) (status : Option String) (now : Int) : Except ApiError Task :=
  match status with
  | none => Except.error (ApiError.badRequest "状态值不能为空")
  | some s =>
      if s = "" then Except.error (ApiError.badRequest "状态值不能为空")
      else if ¬ s ∈ validStatuses then Except.error (ApiError.badRequest "无效的状态值")
      else Except.ok (beforeUpdate task.status { task with status := s, updated_at := now } now)

/-- An HTTP query value: `Array.isArray(x) ? x : [x]` distinguishes a single
value from a repeated parameter. -/
inductive QueryVal where
  | single (v : String)
  | multi (vs : List String)
deriving DecidableEq

/-- `Array.isArray(x) ? x : [x]` (routes/tasks.js lines 201, 206, 211). -/
def QueryVal.toArray : QueryVal → List String
  | QueryVal.single v => [v]
  | QueryVal.multi vs => vs

/-- JS truthiness of a query value: the empty string is falsy, any array is
truthy. -/
def QueryVal.truthy : QueryVal → Bool
  | QueryVal.single v => v != ""
  | QueryVal.multi _ => true

/-- Query string of `GET /api/tasks` after parsing, with the destructuring
defaults `page = 1`, `limit = 10` already applied (routes/tasks.js
lines 170-180).  `sortBy`/`sortOrder` are not modelled: the store's row
order is abstract and the claims are order-independent. -/
structure ListQuery where
  status : Option QueryVal
  priority : Option QueryVal
  project_id : Option QueryVal
  assignee : Option String
  search : Option String
  page : Nat
  limit : Nat
deriving DecidableEq

/-- The `where` object built by `GET /api/tasks` (routes/tasks.js
lines 196-225): `Op.in` sets for status/priority/project, `Op.like`
patterns for assignee, and the `Op.or` search block. -/
structure WhereClause where
  status : Option (List String)
  priority : Option (List String)
  project_id : Option (List String)
  assignee : Option String
  searchOr : Option String
deriving DecidableEq

/-- Construction of the `where` object: each key is added only when the
query value is truthy (`if (status) { ... }`). -/
def buildWhere (q : ListQuery) : WhereClause :=
  { status :=
      (match q.status with
       | some v => if v.truthy then some v.toArray else none
       | none => none)
    priority :=
      (match q.priority with
       | some v => if v.truthy then some v.toArray else none
       | none => none)
    project_id :=
      (match q.project_id with
       | some v => if v.truthy then some v.toArray else none
       | none => none)
    assignee :=
      (match q.assignee with
       | some a => if a != "" then some a else none
       | none => none)
    searchOr :=
      (match q.search with
       | some s => if s != "" then some s else none
       | none => none) }

/-- Substring containment on character lists (semantics of SQL
`hay LIKE '%needle%'` for a literal needle). -/
def listContainsSub (needle : List Char) : List Char → Bool
  | [] => needle.isEmpty
  | c :: tl => needle.isPrefixOf (c :: tl) || listContainsSub needle tl

/-- Substring containment on strings. -/
def strContainsSub (hay needle : String) : Bool :=
  listContainsSub needle.data hay.data

/-- `column LIKE '%needle%'` on a nullable column: a NULL column never
matches. -/
def likeContains (field : Option String) (needle : String) : Bool :=
  match field with
  | none => false
  | some v => strContainsSub v needle

/-- The store's evaluation of the `where` object against a row: all present
keys must hold, the search key is a disjunction over title, description and
tags. -/
def matchesWhere (w : WhereClause) (t : Task) : Bool :=
  (match w.status with | none => true | some arr => arr.contains t.status) &&
  (match w.priority with | none => true | some arr => arr.contains t.priority) &&
  (match w.project_id with
   | none => true
   | some arr => match t.project_id with | none => false | some pid => arr.contains pid) &&
  (match w.assignee with | none => true | some a => likeContains t.assignee a) &&
  (match w.searchOr with
   | none => true
   | some s => likeContains (some t.title) s || likeContains t.description s ||
       likeContains t.tags s)

/-- The rows matching a list query (the `findAndCountAll` result before the
limit/offset slice). -/
def filteredTasks (q : ListQuery) (rows : List Task) : List Task :=
  rows.filter (fun t => matchesWhere (buildWhere q) t)

/-- `Math.ceil(n / l)` on naturals (for `l > 0`). -/
def jsCeil (n l : Nat) : Nat := (n + l - 1) / l

/-- The `pagination` block of the list response (routes/tasks.js
lines 259-266). -/
structure Pagination where
  total : Nat
  page : Nat
  limit : Nat
  totalPages : Nat
  hasNext : Bool
  hasPrev : Bool
deriving DecidableEq

/-- The list response envelope: the sliced rows plus the pagination block. -/
structure ListResponse where
  data : List Task
  pagination : Pagination
deriving DecidableEq

/-- `GET /api/tasks` (routes/tasks.js lines 168-283): filter, slice with
`offset = (page - 1) * limit`, and build the pagination block. -/
def listTasks (q : ListQuery) (rows : List Task) : ListResponse :=
  let offset := (q.page - 1) * q.limit
  let filtered := filteredTasks q rows
  let count := filtered.length
  { data := (filtered.drop offset).take q.limit
    pagination :=
      { total := count
        page := q.page
        limit := q.limit
        totalPages := jsCeil count q.limit
        hasNext := decide (q.page < jsCeil count q.limit)
        hasPrev := decide (1 < q.page) } }

/-- The filter contract as the claim words it: a row satisfies every supplied
filter (set membership for status/priority/project, substring containment for
assignee, and a title/description/tags disjunction for search). -/
def matchesFiltersSpec (q : ListQuery) (t : Task) : Prop :=
  (∀ v, q.status = some v → t.status ∈ v.toArray) ∧
  (∀ v, q.priority = some v → t.priority ∈ v.toArray) ∧
  (∀ v, q.project_id = some v → ∃ pid, t.project_id = some pid ∧ pid ∈ v.toArray) ∧
  (∀ a, q.assignee = some a → ∃ s, t.assignee = some s ∧ strContainsSub s a = true) ∧
  (∀ s, q.search = some s →
    (strContainsSub t.title s = true ∨
     (∃ d, t.description = some d ∧ strContainsSub d s = true) ∨
     (∃ g, t.tags = some g ∧ strContainsSub g s = true)))

/-- The invariant of claim C1: `completed_at` is non-null iff the current
status is `approved`. -/
def completedInvariant (t : Task) : Prop :=
  t.completed_at ≠ none ↔ t.status = "approved"

lemma beforeUpdate_timestamps (prev : String) (u : Task) (now : Int) :
    ((beforeUpdate prev u now).started_at, (beforeUpdate prev u now).completed_at)
      = computeDerivedTimestamps prev u.status u.started_at u.completed_at now := by
  obtain ⟨i, ti, de, pr, st, asg, dd, sa, ca, tg, eh, ah, pid, pn, cra, upa⟩ := u
  by_cases h1 : st = "in_progress" ∧ prev ≠ "in_progress" ∧ sa = none <;>
  by_cases h2 : st = "approved" ∧ prev ≠ "approved" <;>
  by_cases h3 : prev = "approved" ∧ st ≠ "approved" <;>
  by_cases h4 : prev = "in_progress" ∧ st = "todo" <;>
  simp_all [beforeUpdate, computeDerivedTimestamps,
      apply_ite Task.status, apply_ite Task.started_at, apply_ite Task.completed_at] <;>
  (try (split_ifs <;> simp_all))

lemma beforeUpdate_status (prev : String) (u : Task) (now : Int) :
    (beforeUpdate prev u now).status = u.status := by
  obtain ⟨i, ti, de, pr, st, asg, dd, sa, ca, tg, eh, ah, pid, pn, cra, upa⟩ := u
  simp [beforeUpdate, apply_ite Task.status]

lemma beforeUpdate_frame (prev : String) (u : Task) (now : Int) :
    (beforeUpdate prev u now).id = u.id ∧
    (beforeUpdate prev u now).title = u.title ∧
    (beforeUpdate prev u now).description = u.description ∧
    (beforeUpdate prev u now).priority = u.priority ∧
    (beforeUpdate prev u now).assignee = u.assignee ∧
    (beforeUpdate prev u now).due_date = u.due_date ∧
    (beforeUpdate prev u now).tags = u.tags ∧
    (beforeUpdate prev u now).estimated_hours = u.estimated_hours ∧
    (beforeUpdate prev u now).actual_hours = u.actual_hours ∧
    (beforeUpdate prev u now).project_id = u.project_id ∧
    (beforeUpdate prev u now).project_name = u.project_name ∧
    (beforeUpdate prev u now).created_at = u.created_at ∧
    (beforeUpdate prev u now).updated_at = u.updated_at := by
  obtain ⟨i, ti, de, pr, st, asg, dd, sa, ca, tg, eh, ah, pid, pn, cra, upa⟩ := u
  simp [beforeUpdate, apply_ite Task.id, apply_ite Task.title, apply_ite Task.description,
    apply_ite Task.priority, apply_ite Task.assignee, apply_ite Task.due_date,
    apply_ite Task.tags, apply_ite Task.estimated_hours, apply_ite Task.actual_hours,
    apply_ite Task.project_id, apply_ite Task.project_name, apply_ite Task.created_at,
    apply_ite Task.updated_at]

lemma updateTask_ok {task : Task} {body : UpdatePayload} {now : Int} {t2 : Task}
    (h : updateTask task body now = Except.ok t2) :
    t2 = beforeUpdate task.status (applyUpdateData task body now) now := by
  unfold updateTask checkPriorityField checkStatusField applyUpdate at h
  repeat' split at h
  all_goals simp_all

lemma patchStatus_ok {task : Task} {status : Option String} {now : Int} {t2 : Task}
    (h : patchStatus task status now = Except.ok t2) :
    ∃ s, status = some s ∧ s ∈ validStatuses ∧
      t2 = beforeUpdate task.status { task with status := s, updated_at := now } now := by
  unfold patchStatus at h
  repeat' split at h
  all_goals simp_all

lemma createTask_ok_fields {body : CreatePayload} {nextId : Nat} {now : Int} {task : Task}
    (h : createTask body nextId now = Except.ok task) :
    task.id = nextId ∧ task.status = body.status.getD "todo" ∧
    task.priority = body.priority.getD "medium" ∧ task.started_at = none ∧
    task.completed_at = none ∧ task.actual_hours = none := by
  unfold createTask at h
  dsimp only at h
  repeat' split at h
  all_goals (first | (cases h; simp) | simp_all)

lemma completedInvariant_beforeUpdate (prev : String) (u : Task) (now : Int)
    (h : u.completed_at ≠ none ↔ prev = "approved") :
    completedInvariant (beforeUpdate prev u now) := by
  have hts := beforeUpdate_timestamps prev u now
  have hst := beforeUpdate_status prev u now
  have hc := congrArg Prod.snd hts
  simp only [computeDerivedTimestamps] at hc
  by_cases h1 : u.status = "approved" <;> by_cases h2 : prev = "approved" <;>
    simp_all [completedInvariant]

/-- A concrete stored row used to instantiate the claim theorems. -/
def task0 : Task :=
  { id := 7, title := "Write spec", description := none, priority := "high", status := "todo",
    assignee := none, due_date := none, started_at := none, completed_at := none, tags := none,
    estimated_hours := none, actual_hours := none, project_id := none, project_name := none,
    created_at := 0, updated_at := 0 }

/-- A create body that supplies `status = "approved"` directly. -/
def approvedCreateBody : CreatePayload :=
  { title := some "t", description := none, priority := none, status := some "approved",
    assignee := none, due_date := none, tags := none, estimated_hours := none,
    project_id := none, project_name := none, id := none, started_at := none,
    completed_at := none, actual_hours := none }

/-- Claim C1, counterexample: creating a task directly with status
`approved` succeeds and yields a row whose status is `approved` while
`completed_at` is null, so the claimed invariant does not hold after every
create operation. -/
theorem c1_counterexample :
    (createTask approvedCreateBody 1 0).toOption.map (fun t => (t.status, t.completed_at))
      = some ("approved", none) := by decide

/-- Claim C1 (amended): after a create whose effective status is not
`approved` (created rows always have `completed_at = null`), and after every
successful full update and quick-status-patch starting from a row satisfying
it, the invariant `completed_at` non-null iff status = `approved` holds; a
task created directly with status `approved` violates it. -/
theorem c1_completed_iff_approved :
    (∀ body nextId now t, createTask body nextId now = Except.ok t →
        body.status.getD "todo" ≠ "approved" → completedInvariant t) ∧
    (∀ t body now t2, completedInvariant t → updateTask t body now = Except.ok t2 →
        completedInvariant t2) ∧
    (∀ t s now t2, completedInvariant t → patchStatus t s now = Except.ok t2 →
        completedInvariant t2) := by
  refine ⟨?_, ?_, ?_⟩
  · intro body nextId now t h hs
    obtain ⟨_, h2, _, _, h5, _⟩ := createTask_ok_fields h
    simp [completedInvariant, h5, h2, hs]
  · intro t body now t2 hInv h
    have h2 := updateTask_ok h
    subst h2
    apply completedInvariant_beforeUpdate
    simpa [applyUpdateData] using hInv
  · intro t s now t2 hInv h
    obtain ⟨v, _, _, ht⟩ := patchStatus_ok h
    subst ht
    apply completedInvariant_beforeUpdate
    simpa using hInv

/-- Claim C1, witness: the amended theorem applied to a concrete patch of
`task0` to `approved`. -/
theorem c1_witness :
    completedInvariant
      { task0 with status := "approved", completed_at := some 5, updated_at := 5 } :=
  c1_completed_iff_approved.2.2 task0 (some "approved") 5
    { task0 with status := "approved", completed_at := some 5, updated_at := 5 }
    (by simp [completedInvariant, task0]) rfl

/-- Claim C2: on every successful full update and quick-status-patch the
resulting `started_at`/`completed_at` pair is exactly
`computeDerivedTimestamps` of the stored status immediately before the
write, the new status, the stored timestamps, and the write time. -/
theorem c2_status_writes :
    (∀ t body now t2, updateTask t body now = Except.ok t2 →
       (t2.started_at, t2.completed_at)
         = computeDerivedTimestamps t.status t2.status t.started_at t.completed_at now) ∧
    (∀ t s now t2, patchStatus t s now = Except.ok t2 →
       (t2.started_at, t2.completed_at)
         = computeDerivedTimestamps t.status t2.status t.started_at t.completed_at now) := by
  constructor
  · intro t body now t2 h
    have h2 := updateTask_ok h
    subst h2
    have h3 := beforeUpdate_timestamps t.status (applyUpdateData t body now) now
    have h4 := beforeUpdate_status t.status (applyUpdateData t body now) now
    rw [h3, h4]
    simp [applyUpdateData]
  · intro t s now t2 h
    obtain ⟨v, _, _, ht⟩ := patchStatus_ok h
    subst ht
    have h3 := beforeUpdate_timestamps t.status { t with status := v, updated_at := now } now
    have h4 := beforeUpdate_status t.status { t with status := v, updated_at := now } now
    rw [h3, h4]

/-- Claim C2, witness: the theorem applied to a concrete patch of `task0`
to `in_progress`. -/
theorem c2_witness :
    ((some 9 : Option Int), (none : Option Int))
      = computeDerivedTimestamps "todo" "in_progress" none none 9 :=
  c2_status_writes.2 task0 (some "in_progress") 9
    { task0 with status := "in_progress", started_at := some 9, updated_at := 9 } rfl

/-- Claim C3 (code bug): at `started_at = 0` and `completed_at = 86400000`
(exactly one day later) the code's `getDuration` returns `0`, while the
spec's days-rounded-to-2-decimals value is `1`; the misplaced `* 100`
inside the divisor contradicts the code's own comment. -/
theorem c3_duration_bug :
    getDuration (some 0) (some 86400000) = some 0 ∧
    getDurationSpec (some 0) (some 86400000) = some 1 := by
  constructor <;> norm_num [getDuration, getDurationSpec, jsRound]

/-- Claim C4: transitioning to `in_progress` from any other status while
`started_at` is null sets `started_at` to the transition time, and any write
whose target status is not `todo` leaves an already-set `started_at`
unchanged. -/
theorem c4_started_at_once :
    (∀ prev t now, prev ≠ "in_progress" → t.status = "in_progress" → t.started_at = none →
       (beforeUpdate prev t now).started_at = some now) ∧
    (∀ prev t now v, t.started_at = some v → t.status ≠ "todo" →
       (beforeUpdate prev t now).started_at = some v) := by
  constructor
  · intro prev t now h1 h2 h3
    have h4 := congrArg Prod.fst (beforeUpdate_timestamps prev t now)
    simp only [computeDerivedTimestamps] at h4
    simp_all
  · intro prev t now v h1 h2
    have h4 := congrArg Prod.fst (beforeUpdate_timestamps prev t now)
    simp only [computeDerivedTimestamps] at h4
    simp_all

/-- Claim C4, witness: the theorem's first part applied to a concrete
transition of `task0` from `todo` to `in_progress`. -/
theorem c4_witness :
    (beforeUpdate "todo" { task0 with status := "in_progress", updated_at := 3 } 3).started_at
      = some 3 :=
  c4_started_at_once.1 "todo" { task0 with status := "in_progress", updated_at := 3 } 3
    (by decide) rfl rfl

/-- Claim C9: a successful quick-status-patch changes at most `status`,
`started_at`, `completed_at` and `updated_at`; every other stored field of
the row is unchanged. -/
theorem c9_patch_frame (t : Task) (s : Option String) (now : Int) (t2 : Task)
    (h : patchStatus t s now = Except.ok t2) :
    t2.title = t.title ∧ t2.description = t.description ∧ t2.priority = t.priority ∧
    t2.assignee = t.assignee ∧ t2.due_date = t.due_date ∧ t2.tags = t.tags ∧
    t2.estimated_hours = t.estimated_hours ∧ t2.actual_hours = t.actual_hours ∧
    t2.project_id = t.project_id ∧ t2.project_name = t.project_name ∧
    t2.created_at = t.created_at ∧ t2.id = t.id := by
  obtain ⟨v, _, _, ht⟩ := patchStatus_ok h
  subst ht
  obtain ⟨g1, g2, g3, g4, g5, g6, g7, g8, g9, g10, g11, g12, g13⟩ :=
    beforeUpdate_frame t.status { t with status := v, updated_at := now } now
  exact ⟨g2, g3, g4, g5, g6, g7, g8, g9, g10, g11, g12, g1⟩

/-- Claim C9, witness: the theorem applied to a concrete patch of `task0`
to `cancelled`. -/
theorem c9_witness :
    ({ task0 with status := "cancelled", updated_at := 4 } : Task).title = task0.title ∧
    ({ task0 with status := "cancelled", updated_at := 4 } : Task).description = task0.description ∧
    ({ task0 with status := "cancelled", updated_at := 4 } : Task).priority = task0.priority ∧
    ({ task0 with status := "cancelled", updated_at := 4 } : Task).assignee = task0.assignee ∧
    ({ task0 with status := "cancelled", updated_at := 4 } : Task).due_date = task0.due_date ∧
    ({ task0 with status := "cancelled", updated_at := 4 } : Task).tags = task0.tags ∧
    ({ task0 with status := "cancelled", updated_at := 4 } : Task).estimated_hours
      = task0.estimated_hours ∧
    ({ task0 with status := "cancelled", updated_at := 4 } : Task).actual_hours
      = task0.actual_hours ∧
    ({ task0 with status := "cancelled", updated_at := 4 } : Task).project_id = task0.project_id ∧
    ({ task0 with status := "cancelled", updated_at := 4 } : Task).project_name
      = task0.project_name ∧
    ({ task0 with status := "cancelled", updated_at := 4 } : Task).created_at = task0.created_at ∧
    ({ task0 with status := "cancelled", updated_at := 4 } : Task).id = task0.id :=
  c9_patch_frame task0 (some "cancelled") 4
    { task0 with status := "cancelled", updated_at := 4 } rfl

lemma string_length_zero {s : String} (h : s.length = 0) : s = "" := by
  obtain ⟨d⟩ := s
  simp only [String.length] at h
  simp only [List.length_eq_zero] at h
  subst h
  rfl

/-- Claim C7: every valid create payload (supplied title that is non-empty
after trimming and at most 100 characters, supplied enum values valid)
yields a created task whose status defaults to `todo`, whose priority
defaults to `medium`, and whose `started_at` and `completed_at` are null. -/
theorem c7_create_defaults (body : CreatePayload) (nextId : Nat) (now : Int)
    (t : String) (ht : body.title = some t) (hne : jsTrim t ≠ "") (hlen : t.length ≤ 100)
    (hp : ∀ p, body.priority = some p → p ∈ validPriorities)
    (hs : ∀ s, body.status = some s → s ∈ validStatuses) :
    ∃ task, createTask body nextId now = Except.ok task ∧
      task.status = body.status.getD "todo" ∧
      task.priority = body.priority.getD "medium" ∧
      task.started_at = none ∧ task.completed_at = none := by
  have hpv : body.priority.getD "medium" ∈ validPriorities := by
    cases hb : body.priority with
    | none => simp [validPriorities]
    | some p => simpa using hp p hb
  have hsv : body.status.getD "todo" ∈ validStatuses := by
    cases hb : body.status with
    | none => simp [validStatuses]
    | some s => simpa using hs s hb
  have hlt : ¬ (jsTrim t).length = 0 := fun h0 => hne (string_length_zero h0)
  have hlen2 : ¬ t.length > 100 := by omega
  have heq : createTask body nextId now = Except.ok
      { id := nextId, title := jsTrim t, description := strOrNull body.description,
        priority := body.priority.getD "medium", status := body.status.getD "todo",
        assignee := strOrNull body.assignee, due_date := body.due_date,
        started_at := none, completed_at := none, tags := strOrNull body.tags,
        estimated_hours := numOrNull body.estimated_hours, actual_hours := none,
        project_id := strOrNull body.project_id, project_name := strOrNull body.project_name,
        created_at := now, updated_at := now } := by
    unfold createTask
    rw [ht]
    dsimp only
    rw [if_neg hlt, if_neg hlen2, if_neg (not_not_intro hpv), if_neg (not_not_intro hsv)]
  exact ⟨_, heq, rfl, rfl, rfl, rfl⟩

/-- A create body supplying only a title and a priority. -/
def simpleCreateBody : CreatePayload :=
  { title := some "Write spec", description := none, priority := some "high", status := none,
    assignee := none, due_date := none, tags := none, estimated_hours := none,
    project_id := none, project_name := none, id := none, started_at := none,
    completed_at := none, actual_hours := none }

/-- Claim C7, witness: the theorem applied to a concrete create body. -/
theorem c7_witness :
    ∃ task, createTask simpleCreateBody 1 0 = Except.ok task ∧
      task.status = simpleCreateBody.status.getD "todo" ∧
      task.priority = simpleCreateBody.priority.getD "medium" ∧
      task.started_at = none ∧ task.completed_at = none :=
  c7_create_defaults simpleCreateBody 1 0 "Write spec" rfl (by decide) (by decide)
    (fun p hp => by simp [simpleCreateBody] at hp; subst hp; decide)
    (fun s hs => by simp [simpleCreateBody] at hs)

/-- Claim C10: the create handler reads none of `id`, `started_at`,
`completed_at`, `actual_hours` from the body: the created row always has the
auto-assigned id and null timestamps/actual hours, and changing those body
fields does not change the result at all. -/
theorem c10_create_whitelist :
    (∀ body nextId now task, createTask body nextId now = Except.ok task →
       task.id = nextId ∧ task.started_at = none ∧ task.completed_at = none ∧
       task.actual_hours = none) ∧
    (∀ body nextId now i s c a,
       createTask { body with id := i, started_at := s, completed_at := c, actual_hours := a }
           nextId now
         = createTask body nextId now) := by
  constructor
  · intro body nextId now task h
    obtain ⟨h1, _, _, h4, h5, h6⟩ := createTask_ok_fields h
    exact ⟨h1, h4, h5, h6⟩
  · intro body nextId now i s c a
    obtain ⟨t, d, p, st, asg, dd, tg, eh, pid, pn, i0, s0, c0, a0⟩ := body
    cases t <;> rfl

/-- A create body that tries to supply `id`, `started_at`, `completed_at`
and `actual_hours` directly. -/
def sneakyCreateBody : CreatePayload :=
  { title := some "x", description := none, priority := none, status := none,
    assignee := none, due_date := none, tags := none, estimated_hours := none,
    project_id := none, project_name := none, id := some 99, started_at := some 1,
    completed_at := some 2, actual_hours := some 3 }

/-- The row `createTask sneakyCreateBody 5 0` produces. -/
def sneakyCreated : Task :=
  { id := 5, title := jsTrim "x", description := none, priority := "medium",
    status := "todo", assignee := none, due_date := none, started_at := none,
    completed_at := none, tags := none, estimated_hours := none, actual_hours := none,
    project_id := none, project_name := none, created_at := 0, updated_at := 0 }

/-- Claim C10, witness: the theorem's first part applied to a create body
that supplies all four ignored fields. -/
theorem c10_witness :
    sneakyCreated.id = 5 ∧ sneakyCreated.started_at = none ∧
    sneakyCreated.completed_at = none ∧ sneakyCreated.actual_hours = none :=
  c10_create_whitelist.1 sneakyCreateBody 5 0 sneakyCreated rfl

/-- Whether a handler result is an HTTP 400 response. -/
def isBadRequest (r : Except ApiError Task) : Bool :=
  match r with
  | Except.error (ApiError.badRequest _) => true
  | _ => false

/-- A 110-character title whose trimmed form has only 60 characters. -/
def paddedTitle : String := ⟨List.replicate 50 ' ' ++ List.replicate 60 'a'⟩

/-- A create body whose title is `paddedTitle`. -/
def paddedCreateBody : CreatePayload :=
  { title := some paddedTitle, description := none, priority := none, status := none,
    assignee := none, due_date := none, tags := none, estimated_hours := none,
    project_id := none, project_name := none, id := none, started_at := none,
    completed_at := none, actual_hours := none }

/-- Claim C8, counterexample: a title of 110 characters that trims to 60
characters is rejected with the length error even though its trimmed form is
non-empty and within 100 characters and all enum values are valid, so the
create does not fail "exactly when" the trimmed title is empty or longer
than 100 characters — the length check runs on the untrimmed title. -/
theorem c8_counterexample :
    createTask paddedCreateBody 1 0
      = Except.error (ApiError.badRequest "任务标题长度不能超过100个字符") ∧
    jsTrim paddedTitle ≠ "" ∧ (jsTrim paddedTitle).length ≤ 100 ∧
    ("medium" ∈ validPriorities) ∧ ("todo" ∈ validStatuses) :=
  ⟨rfl, by decide, by decide, by decide, by decide⟩

/-- Claim C8 (amended): a create with a supplied title, and any update,
fails with HTTP 400 exactly when the supplied title is empty after trimming
or its untrimmed length exceeds 100 characters, or a supplied priority or
status is outside its enum; on such a failure no row value is produced. -/
theorem c8_validation :
    (∀ body nextId now t, body.title = some t →
       (isBadRequest (createTask body nextId now) = true ↔
         (jsTrim t = "" ∨ t.length > 100 ∨
          body.priority.getD "medium" ∉ validPriorities ∨
          body.status.getD "todo" ∉ validStatuses))) ∧
    (∀ task body now,
       (isBadRequest (updateTask task body now) = true ↔
         ((∃ t, body.title = some t ∧ (jsTrim t = "" ∨ t.length > 100)) ∨
          (∃ p, body.priority = some p ∧ p ∉ validPriorities) ∨
          (∃ s, body.status = some s ∧ s ∉ validStatuses)))) := by
  constructor
  · intro body nextId now t ht
    have hiff : (jsTrim t).length = 0 ↔ jsTrim t = "" :=
      ⟨string_length_zero, fun h => by rw [h]; rfl⟩
    unfold createTask
    rw [ht]
    dsimp only
    split_ifs with h1 h2 h3 h4 <;> simp_all [isBadRequest]
  · intro task body now
    unfold updateTask checkPriorityField checkStatusField applyUpdate
    have hiff : ∀ u : String, (jsTrim u).length = 0 ↔ jsTrim u = "" :=
      fun u => ⟨string_length_zero, fun h => by rw [h]; rfl⟩
    repeat' split
    all_goals simp_all [isBadRequest]

/-- A create body with an empty supplied title. -/
def emptyTitleBody : CreatePayload :=
  { title := some "", description := none, priority := none, status := none,
    assignee := none, due_date := none, tags := none, estimated_hours := none,
    project_id := none, project_name := none, id := none, started_at := none,
    completed_at := none, actual_hours := none }

/-- Claim C8, witness: the amended theorem applied to a concrete create body
with an empty title. -/
theorem c8_witness : isBadRequest (createTask emptyTitleBody 1 0) = true :=
  (c8_validation.1 emptyTitleBody 1 0 "" rfl).mpr (Or.inl (by decide))

/-- Claim C5: the list response reports `total` as the number of matching
rows, `totalPages` as the ceiling division of that number by the limit,
`hasNext`/`hasPrev` as the claimed comparisons, slices the store at offset
`(page - 1) * limit`, and a page beyond `totalPages` yields an empty data
list with `hasNext = false`. -/
theorem c5_pagination (q : ListQuery) (rows : List Task)
    (hp : 1 ≤ q.page) (hl : 1 ≤ q.limit) :
    (listTasks q rows).pagination.total = (filteredTasks q rows).length ∧
    (listTasks q rows).pagination.totalPages = (filteredTasks q rows).length ⌈/⌉ q.limit ∧
    ((listTasks q rows).pagination.hasNext = true ↔
        q.page < (listTasks q rows).pagination.totalPages) ∧
    ((listTasks q rows).pagination.hasPrev = true ↔ 1 < q.page) ∧
    (listTasks q rows).data
      = ((filteredTasks q rows).drop ((q.page - 1) * q.limit)).take q.limit ∧
    ((listTasks q rows).pagination.totalPages < q.page →
      (listTasks q rows).data = [] ∧ (listTasks q rows).pagination.hasNext = false) := by
  have hl0 : 0 < q.limit := by omega
  refine ⟨rfl, rfl, ?_, ?_, rfl, ?_⟩
  · simp [listTasks]
  · simp [listTasks]
  · intro hlt
    have hceil : (filteredTasks q rows).length ≤
        q.limit * ((filteredTasks q rows).length ⌈/⌉ q.limit) := by
      simpa [smul_eq_mul] using le_smul_ceilDiv (b := (filteredTasks q rows).length) hl0
    have htp : (filteredTasks q rows).length ⌈/⌉ q.limit ≤ q.page - 1 := by
      have : (listTasks q rows).pagination.totalPages
          = (filteredTasks q rows).length ⌈/⌉ q.limit := rfl
      omega
    have hoff : (filteredTasks q rows).length ≤ (q.page - 1) * q.limit := by
      calc (filteredTasks q rows).length
          ≤ q.limit * ((filteredTasks q rows).length ⌈/⌉ q.limit) := hceil
        _ ≤ q.limit * (q.page - 1) := Nat.mul_le_mul_left _ htp
        _ = (q.page - 1) * q.limit := Nat.mul_comm _ _
    constructor
    · show ((filteredTasks q rows).drop ((q.page - 1) * q.limit)).take q.limit = []
      rw [List.drop_eq_nil_of_le hoff]
      exact List.take_nil
    · show decide (q.page < jsCeil (filteredTasks q rows).length q.limit) = false
      have : ¬ q.page < (filteredTasks q rows).length ⌈/⌉ q.limit := by
        have : (listTasks q rows).pagination.totalPages
            = (filteredTasks q rows).length ⌈/⌉ q.limit := rfl
        omega
      simpa [jsCeil, Nat.ceilDiv_eq_add_pred_div] using decide_eq_false this

/-- Three stored rows used to instantiate the pagination claim. -/
def rows0 : List Task := [task0, { task0 with id := 8 }, { task0 with id := 9 }]

/-- A filterless list query asking for page 3 at limit 2. -/
def query0 : ListQuery :=
  { status := none, priority := none, project_id := none, assignee := none,
    search := none, page := 3, limit := 2 }

/-- Claim C5, witness: the theorem applied to a concrete query whose page
lies beyond the last page. -/
theorem c5_witness :
    (listTasks query0 rows0).pagination.total = (filteredTasks query0 rows0).length ∧
    (listTasks query0 rows0).pagination.totalPages
      = (filteredTasks query0 rows0).length ⌈/⌉ query0.limit ∧
    ((listTasks query0 rows0).pagination.hasNext = true ↔
        query0.page < (listTasks query0 rows0).pagination.totalPages) ∧
    ((listTasks query0 rows0).pagination.hasPrev = true ↔ 1 < query0.page) ∧
    (listTasks query0 rows0).data
      = ((filteredTasks query0 rows0).drop ((query0.page - 1) * query0.limit)).take
          query0.limit ∧
    ((listTasks query0 rows0).pagination.totalPages < query0.page →
      (listTasks query0 rows0).data = [] ∧
      (listTasks query0 rows0).pagination.hasNext = false) :=
  c5_pagination query0 rows0 (by decide) (by decide)

lemma likeContains_iff (f : Option String) (a : String) :
    likeContains f a = true ↔ ∃ s, f = some s ∧ strContainsSub s a = true := by
  cases f <;> simp [likeContains]

lemma matchesWhere_spec (q : ListQuery) (r : Task)
    (hst : ∀ v, q.status = some v → v.truthy = true)
    (hpr : ∀ v, q.priority = some v → v.truthy = true)
    (hpj : ∀ v, q.project_id = some v → v.truthy = true)
    (has : q.assignee ≠ some "")
    (hse : q.search ≠ some "") :
    matchesWhere (buildWhere q) r = true ↔ matchesFiltersSpec q r := by
  obtain ⟨qs, qp, qj, qa, qse, pg, lim⟩ := q
  simp only at hst hpr hpj has hse
  cases qs <;> cases qp <;> cases qj <;> cases qa <;> cases qse <;>
    simp_all [matchesWhere, buildWhere, matchesFiltersSpec, likeContains_iff,
      Bool.and_eq_true, Bool.or_eq_true, or_assoc, and_assoc] <;>
    (try (cases hh : r.project_id <;> simp_all))

/-- Claim C6: a row is among the rows a list query matches exactly when it
satisfies every supplied (truthy) filter: status/priority/project membership
in the given set, assignee substring containment, and the
title/description/tags search disjunction. -/
theorem c6_filtering (q : ListQuery) (rows : List Task) (r : Task)
    (hst : ∀ v, q.status = some v → v.truthy = true)
    (hpr : ∀ v, q.priority = some v → v.truthy = true)
    (hpj : ∀ v, q.project_id = some v → v.truthy = true)
    (has : q.assignee ≠ some "")
    (hse : q.search ≠ some "") :
    r ∈ filteredTasks q rows ↔ r ∈ rows ∧ matchesFiltersSpec q r := by
  simp only [filteredTasks, List.mem_filter,
    matchesWhere_spec q r hst hpr hpj has hse]

/-- A list query filtering on a status set and a search string. -/
def query1 : ListQuery :=
  { status := some (QueryVal.multi ["in_progress", "todo"]), priority := none,
    project_id := none, assignee := none, search := some "doc", page := 1, limit := 10 }

/-- A row whose title contains the search string. -/
def taskDoc : Task := { task0 with title := "Write doc", tags := some "doc,api" }

/-- Claim C6, witness: the theorem applied to a concrete query and row. -/
theorem c6_witness :
    taskDoc ∈ filteredTasks query1 [taskDoc] ↔
      taskDoc ∈ [taskDoc] ∧ matchesFiltersSpec query1 taskDoc :=
  c6_filtering query1 [taskDoc] taskDoc
    (fun v hv => by simp [query1] at hv; subst hv; rfl)
    (fun v hv => by simp [query1] at hv)
    (fun v hv => by simp [query1] at hv)
    (by simp [query1])
    (by simp [query1])

end TaskManager
